import Mathlib

/-!
Shallow embedding of the DWC server state-coordination layer
(`admin_panel/dwc_admin/models.py` and
`admin_panel/dwc_admin/database_manager.py`).

The database is modelled as an explicit record of rows; every
`DatabaseManager` static method becomes a pure function taking and
returning the state. Timestamps are integers (seconds); `timezone.now()`
becomes an explicit `now` argument. Django's `Model.objects.get` raising
`DoesNotExist` is modelled with `Option`/`Except`; `try/except ...: return
None` with `Option.none`.
-/

inductive Err where
  | notFound
  | alreadyExists
  deriving Repr, DecidableEq

/-- A `Profile` row (models.py, class Profile); only the fields the claims
touch are carried: primary key `profile_id`, the unique-together pair
`(user_id, game_id)`, the GameSpy broadcast code `gs_broadcast_code`
(blank string when absent), `uniquenick`, and the cached friend code
`cfc` (blank by default). -/
structure Profile where
  profile_id : Nat
  user_id : String
  game_id : String
  gs_broadcast_code : String
  uniquenick : String
  cfc : String
  deriving Repr, DecidableEq

/-- A `Session` row (models.py, class Session): key, owning profile id,
login timestamp. -/
structure Session where
  session_key : String
  profile_id : Nat
  login_time : Int
  deriving Repr, DecidableEq

/-- A `Pending` matchmaking row (models.py, class Pending): profile id and
group id (the unique-together composite key). -/
structure Pending where
  profile_id : Nat
  group_id : Int
  deriving Repr, DecidableEq

/-- A `NatNeg` row (models.py, class NatNeg): cookie primary key and the
client endpoint. -/
structure NatNeg where
  cookie : Int
  client_addr : String
  client_port : Int
  deriving Repr, DecidableEq

/-- A `GameServer` row (models.py, class GameServer): unique `server_id`,
game name, endpoint and last heartbeat timestamp. -/
structure GameServer where
  server_id : String
  game_name : String
  ip_address : String
  port : Int
  last_heartbeat : Int
  deriving Repr, DecidableEq

/-- A `BannedItem` row (models.py, class BannedItem): the unique-together
composite key `(ban_type, identifier)` and the optional expiry
(`None` = permanent). -/
structure BannedItem where
  ban_type : String
  identifier : String
  expires_at : Option Int
  deriving Repr, DecidableEq

/-- A `Console` row (models.py, class Console): unique MAC address and the
`enabled` flag. -/
structure Console where
  mac_address : String
  enabled : Bool
  deriving Repr, DecidableEq

/-- The database state: one list of rows per table the claims touch, plus
the auto-increment counter backing `Profile.profile_id`
(`BigAutoField(primary_key=True)`). -/
structure DB where
  profiles : List Profile
  sessions : List Session
  pendings : List Pending
  natnegs : List NatNeg
  game_servers : List GameServer
  banned : List BannedItem
  consoles : List Console
  next_profile_id : Nat
  deriving Repr, DecidableEq

def emptyDB : DB :=
  { profiles := [], sessions := [], pendings := [], natnegs := [],
    game_servers := [], banned := [], consoles := [], next_profile_id := 1 }

/-- Extra profile fields passed as `**kwargs` / `defaults` to the creation
entry points. -/
structure ProfileDefaults where
  gs_broadcast_code : String
  uniquenick : String
  deriving Repr, DecidableEq

/-- Modelled from the spec: `generate_friend_code` lives in the
`friendcode` module, which is not among the available sources (only
its import and call sites are). Per the spec it is a pure deterministic
function that combines the numeric profile id with a per-title game code,
runs a checksum transform and yields a checksum-embedded decimal
identifier (classic scheme: the 32-bit profile id in the low bits, a
small checksum of the inputs in the high bits); changing either input
changes the output with high probability. -/
def generate_friend_code (profile_id : Nat) (game_code : String) : Nat :=
  let checksum :=
    game_code.toList.foldl (fun a c => (a * 31 + c.toNat) % 128) (profile_id % 128)
  profile_id % 2 ^ 32 + checksum * 2 ^ 32

/-- Decimal digits of `n`, left-padded with `'0'` to width 4. -/
def pad4 (n : Nat) : List Char :=
  let ds := Nat.toDigits 10 n
  List.replicate (4 - ds.length) '0' ++ ds

/-- Modelled from the spec: `format_friend_code` from the missing
`friendcode` module emits the raw code as fixed-width decimal digits
grouped for display, e.g. `1234-5678-9012`. -/
def format_friend_code (fc : Nat) : String :=
  String.mk (pad4 (fc / 10 ^ 8 % 10 ^ 4) ++ '-' :: pad4 (fc / 10 ^ 4 % 10 ^ 4)
    ++ '-' :: pad4 (fc % 10 ^ 4))

/-- `Profile.friend_code` property (models.py:120-136): derives the
display code, preferring the full `gs_broadcast_code` when non-blank and
falling back to `game_id`. (The `try/except` guard never fires in the
model: the codec is total.) -/
def Profile.friend_code (p : Profile) : String :=
  let game_code := if p.gs_broadcast_code ≠ "" then p.gs_broadcast_code else p.game_id
  format_friend_code (generate_friend_code p.profile_id game_code)

/-- `DatabaseManager.get_profile_by_id` (database_manager.py:69-83):
`Profile.objects.get(profile_id=...)` with `DoesNotExist` mapped to
`None`. -/
def get_profile_by_id (db : DB) (profile_id : Nat) : Option Profile :=
  db.profiles.find? (fun p => p.profile_id == profile_id)

/-- `DatabaseManager.get_profile_by_uniquenick` (database_manager.py:85-99). -/
def get_profile_by_uniquenick (db : DB) (uniquenick : String) : Option Profile :=
  db.profiles.find? (fun p => p.uniquenick == uniquenick)

/-- The row inserted by `Profile.objects.create`/`get_or_create` followed
by the friend-code cache write: a fresh profile id from the sequence, the
caller's defaults, and `cfc` set from `generate_friend_code(profile_id,
game_id)` — note the `game_id` argument (database_manager.py:127,156). -/
def mkProfileRow (db : DB) (user_id game_id : String) (defaults : ProfileDefaults) :
    Profile :=
  { profile_id := db.next_profile_id
    user_id := user_id
    game_id := game_id
    gs_broadcast_code := defaults.gs_broadcast_code
    uniquenick := defaults.uniquenick
    cfc := format_friend_code (generate_friend_code db.next_profile_id game_id) }

/-- `DatabaseManager.get_or_create_profile` (database_manager.py:101-131):
atomic get-or-create on the `(user_id, game_id)` unique pair; on creation
the friend code is generated and saved into `cfc` before returning. -/
def get_or_create_profile (db : DB) (user_id game_id : String)
    (defaults : ProfileDefaults) : Profile × DB :=
  match db.profiles.find? (fun p => p.user_id == user_id && p.game_id == game_id) with
  | some p => (p, db)
  | none =>
    let p := mkProfileRow db user_id game_id defaults
    (p, { db with profiles := db.profiles ++ [p],
                  next_profile_id := db.next_profile_id + 1 })

/-- `DatabaseManager.create_profile` (database_manager.py:133-160):
non-idempotent create; the `(user_id, game_id)` unique constraint raises
`IntegrityError` when the pair is taken, modelled as `.error
.alreadyExists`. -/
def create_profile (db : DB) (user_id game_id : String)
    (defaults : ProfileDefaults) : Except Err (Profile × DB) :=
  if db.profiles.any (fun p => p.user_id == user_id && p.game_id == game_id) then
    .error .alreadyExists
  else
    let p := mkProfileRow db user_id game_id defaults
    .ok (p, { db with profiles := db.profiles ++ [p],
                      next_profile_id := db.next_profile_id + 1 })

/-- `Session.is_active` (models.py:351-357): active while `login_time >
now - 30 minutes`. -/
def Session.is_active (s : Session) (now : Int) : Bool :=
  decide (now - 30 * 60 < s.login_time)

/-- `BannedItem.is_active` (models.py:266-270): a ban with an expiry is
active while `now < expires_at`; a ban without one is always active. -/
def BannedItem.is_active (b : BannedItem) (now : Int) : Bool :=
  match b.expires_at with
  | some e => decide (now < e)
  | none => true

/-- `GameServer.is_online` (models.py:312-316): online while
`last_heartbeat > now - 2 minutes`. -/
def GameServer.is_online (s : GameServer) (now : Int) : Bool :=
  decide (now - 2 * 60 < s.last_heartbeat)

/-- `DatabaseManager.add_to_pending` (database_manager.py:319-336): looks
up the profile (an uncaught `Profile.DoesNotExist` propagates, leaving
the queue untouched), then `Pending.objects.get_or_create` on the
`(profile, group_id)` pair. -/
def add_to_pending (db : DB) (profile_id : Nat) (group_id : Int) :
    Except Err Pending × DB :=
  match db.profiles.find? (fun p => p.profile_id == profile_id) with
  | none => (.error .notFound, db)
  | some _ =>
    match db.pendings.find? (fun q => q.profile_id == profile_id
        && q.group_id == group_id) with
    | some q => (.ok q, db)
    | none =>
      let q : Pending := { profile_id := profile_id, group_id := group_id }
      (.ok q, { db with pendings := db.pendings ++ [q] })

/-- `DatabaseManager.remove_from_pending` (database_manager.py:338-354):
filter-delete on the composite key; returns whether any row was
deleted. -/
def remove_from_pending (db : DB) (profile_id : Nat) (group_id : Int) :
    Bool × DB :=
  let hit := fun (q : Pending) => q.profile_id == profile_id && q.group_id == group_id
  let deleted := (db.pendings.filter hit).length
  (decide (deleted > 0), { db with pendings := db.pendings.filter (fun q => !hit q) })

/-- The per-row effect of `update_or_create`'s update half: the row with
the matching cookie has its endpoint fields overwritten, every other row
is untouched. -/
def overwrite_endpoint (cookie : Int) (client_addr : String) (client_port : Int)
    (n : NatNeg) : NatNeg :=
  if n.cookie == cookie then
    { n with client_addr := client_addr, client_port := client_port }
  else n

/-- `DatabaseManager.create_natneg` (database_manager.py:374-394):
`NatNeg.objects.update_or_create` keyed by `cookie` — the existing row's
endpoint fields are overwritten, or a fresh row is inserted. -/
def create_natneg (db : DB) (cookie : Int) (client_addr : String)
    (client_port : Int) : NatNeg × DB :=
  match db.natnegs.find? (fun n => n.cookie == cookie) with
  | some _ =>
    let upd := db.natnegs.map (overwrite_endpoint cookie client_addr client_port)
    ({ cookie := cookie, client_addr := client_addr, client_port := client_port },
      { db with natnegs := upd })
  | none =>
    let n : NatNeg := { cookie := cookie, client_addr := client_addr,
                        client_port := client_port }
    (n, { db with natnegs := db.natnegs ++ [n] })

/-- `DatabaseManager.get_natneg` (database_manager.py:396-410). -/
def get_natneg (db : DB) (cookie : Int) : Option NatNeg :=
  db.natnegs.find? (fun n => n.cookie == cookie)

/-- `DatabaseManager.get_game_servers` (database_manager.py:461-478):
keeps servers whose `last_heartbeat` is strictly newer than `now - 2
minutes`; Python's `if game_name:` applies the name filter only when the
argument is a non-empty (truthy) string. -/
def get_game_servers (db : DB) (game_name : Option String) (now : Int) :
    List GameServer :=
  let threshold := now - 2 * 60
  let qs := db.game_servers.filter (fun s => decide (threshold < s.last_heartbeat))
  match game_name with
  | some g => if g == "" then qs else qs.filter (fun s => s.game_name == g)
  | none => qs

/-- `DatabaseManager.is_banned` (database_manager.py:601-617): point
lookup on the `(ban_type, identifier)` composite key; a hit is banned iff
its `is_active()`, a miss is never banned. -/
def is_banned (db : DB) (ban_type identifier : String) (now : Int) : Bool :=
  match db.banned.find? (fun b => b.ban_type == ban_type
      && b.identifier == identifier) with
  | some b => b.is_active now
  | none => false

/-- `DatabaseManager.is_console_enabled` (database_manager.py:692-708):
point lookup on the unique MAC; a hit returns the `enabled` flag, a miss
is treated as not allowed. -/
def is_console_enabled (db : DB) (mac_address : String) : Bool :=
  match db.consoles.find? (fun c => c.mac_address == mac_address) with
  | some c => c.enabled
  | none => false

/-- A database holding one permanent IP ban, for concrete evaluation. -/
def dbBan : DB :=
  { emptyDB with banned := [{ ban_type := "ip", identifier := "1.2.3.4",
                              expires_at := none }] }

/-- A database holding one profile (id 5) and an empty matchmaking queue,
for concrete evaluation. -/
def dbPend : DB :=
  { emptyDB with
      profiles := [{ profile_id := 5, user_id := "user5", game_id := "ADAJ",
                     gs_broadcast_code := "", uniquenick := "nick5",
                     cfc := "0000-0000-0005" }],
      next_profile_id := 6 }

/-- A database holding one freshly heartbeaten game server, for concrete
evaluation. -/
def dbSrv : DB :=
  { emptyDB with
      game_servers := [{ server_id := "srv1", game_name := "MarioKart",
                         ip_address := "5.6.7.8", port := 27901,
                         last_heartbeat := 1000 }] }

/-- A database holding one enabled console, for concrete evaluation. -/
def dbCon : DB :=
  { emptyDB with consoles := [{ mac_address := "00:09:bf:11:22:33",
                                enabled := true }] }

/-! ## Helper lemmas -/

theorem format_friend_code_ne_empty (fc : Nat) : format_friend_code fc ≠ "" := by
  unfold format_friend_code
  intro h
  have hd := congrArg String.data h
  simp at hd

theorem bannedItem_active_iff (b : BannedItem) (now : Int) :
    b.is_active now = true ↔
      b.expires_at = none ∨ ∃ e, b.expires_at = some e ∧ now < e := by
  unfold BannedItem.is_active
  cases h : b.expires_at <;> simp [h]

theorem find?_of_filter_eq_singleton {α : Type} {p : α → Bool} {l : List α} {x : α}
    (h : l.filter p = [x]) : l.find? p = some x := by
  induction l with
  | nil => simp at h
  | cons a t ih =>
    cases hp : p a with
    | true =>
      rw [List.filter_cons, if_pos hp] at h
      rw [List.find?_cons, hp]
      exact congrArg some (List.cons_eq_cons.mp h).1
    | false =>
      rw [List.filter_cons, if_neg (by simp [hp])] at h
      rw [List.find?_cons, hp]
      exact ih h

/-! ## Claims -/

/-- C1: creating a profile with a non-blank broadcast code caches a
friend code computed from `game_id`, while the `friend_code` property
derives it from `gs_broadcast_code` — so the cached code differs from the
derived one, refuting "the cached code always equals the code the
friend_code property derives". Concretely: `create_profile` on the empty
database with `user_id = "user123"`, `game_id = "ADAJ"` and
`gs_broadcast_code = "ADAJJ"` yields a profile whose `cfc` and
`friend_code` disagree. -/
theorem C1_cached_code_diverges_from_derived :
    ∃ p db2,
      create_profile emptyDB "user123" "ADAJ"
        { gs_broadcast_code := "ADAJJ", uniquenick := "" } = .ok (p, db2)
      ∧ p.gs_broadcast_code ≠ "" ∧ p.cfc ≠ p.friend_code := by
  refine ⟨_, _, rfl, ?_, ?_⟩ <;> decide

/-- C3 counterexample: on the empty database, both point lookups return
the sentinel `None` for a missing key instead of failing with a
`NotFound` error. -/
theorem C3_lookups_return_none_sentinel :
    get_profile_by_id emptyDB 1 = none
    ∧ get_profile_by_uniquenick emptyDB "nick" = none := by
  exact ⟨rfl, rfl⟩

/-- C3 amended: for every `profile_id` (respectively `uniquenick`) the
point lookups return `None` exactly when no stored profile matches —
absence is signalled by the `None` sentinel, not by a `NotFound`
error. -/
theorem C3_lookup_none_iff_absent (db : DB) (profile_id : Nat) (uniquenick : String) :
    (get_profile_by_id db profile_id = none
      ↔ ∀ p ∈ db.profiles, p.profile_id ≠ profile_id)
    ∧ (get_profile_by_uniquenick db uniquenick = none
      ↔ ∀ p ∈ db.profiles, p.uniquenick ≠ uniquenick) := by
  constructor
  · simp [get_profile_by_id, List.find?_eq_none]
  · simp [get_profile_by_uniquenick, List.find?_eq_none]

/-- C4: a session is active iff strictly less than 30 minutes have passed
since its original login time; at exactly 30 minutes it is inactive. -/
theorem C4_session_active_iff (s : Session) (now : Int) :
    s.is_active now = true ↔ now - s.login_time < 30 * 60 := by
  simp only [Session.is_active, decide_eq_true_eq]
  omega

/-- C2: starting from a database in which every stored profile carries a
non-blank cached friend code, `get_or_create_profile` returns a profile
whose `cfc` is non-blank and preserves the invariant, and so does
`create_profile` whenever it succeeds — no caller ever observes a profile
produced by these operations with a missing cached code. -/
theorem C2_created_profiles_have_cached_code (db : DB) (user_id game_id : String)
    (defaults : ProfileDefaults)
    (h : ∀ p ∈ db.profiles, p.cfc ≠ "") :
    ((get_or_create_profile db user_id game_id defaults).1.cfc ≠ ""
      ∧ ∀ p ∈ (get_or_create_profile db user_id game_id defaults).2.profiles,
          p.cfc ≠ "")
    ∧ ∀ p db2, create_profile db user_id game_id defaults = .ok (p, db2) →
        p.cfc ≠ "" ∧ ∀ q ∈ db2.profiles, q.cfc ≠ "" := by
  constructor
  · unfold get_or_create_profile
    cases hf : db.profiles.find?
        (fun p => p.user_id == user_id && p.game_id == game_id) with
    | some p =>
      exact ⟨h p (List.mem_of_find?_eq_some hf), h⟩
    | none =>
      refine ⟨format_friend_code_ne_empty _, ?_⟩
      intro q hq
      rcases List.mem_append.mp hq with hq | hq
      · exact h q hq
      · rw [List.mem_singleton.mp hq]
        exact format_friend_code_ne_empty _
  · intro p db2 hc
    unfold create_profile at hc
    split at hc
    · exact absurd hc (by simp)
    · rw [Except.ok.injEq, Prod.mk.injEq] at hc
      obtain ⟨hp, hdb⟩ := hc
      subst hp
      subst hdb
      refine ⟨format_friend_code_ne_empty _, ?_⟩
      intro q hq
      rcases List.mem_append.mp hq with hq | hq
      · exact h q hq
      · rw [List.mem_singleton.mp hq]
        exact format_friend_code_ne_empty _

/-- C2 witness: on the empty database, `get_or_create_profile` returns a
profile whose cached friend code is non-blank. -/
theorem C2_witness :
    (get_or_create_profile emptyDB "user123" "ADAJ"
      { gs_broadcast_code := "", uniquenick := "" }).1.cfc ≠ "" :=
  (C2_created_profiles_have_cached_code emptyDB "user123" "ADAJ"
    { gs_broadcast_code := "", uniquenick := "" } (by decide)).1.1

/-- C5: under the `(ban_type, identifier)` unique-together invariant,
`is_banned` returns true exactly when a matching `BannedItem` row exists
that is permanent (`expires_at` null) or not yet expired (`now <
expires_at`); a missing row or a row expired in the past yields false. -/
theorem C5_is_banned_iff (db : DB) (ban_type identifier : String) (now : Int)
    (huniq : ∀ b1 ∈ db.banned, ∀ b2 ∈ db.banned,
      b1.ban_type = b2.ban_type → b1.identifier = b2.identifier → b1 = b2) :
    is_banned db ban_type identifier now = true ↔
      ∃ b ∈ db.banned, b.ban_type = ban_type ∧ b.identifier = identifier
        ∧ (b.expires_at = none ∨ ∃ e, b.expires_at = some e ∧ now < e) := by
  unfold is_banned
  cases hf : db.banned.find?
      (fun b => b.ban_type == ban_type && b.identifier == identifier) with
  | none =>
    rw [List.find?_eq_none] at hf
    constructor
    · intro hfalse
      exact absurd hfalse (by simp)
    · rintro ⟨b, hb, hbt, hbi, _⟩
      have := hf b hb
      simp [hbt, hbi] at this
  | some b0 =>
    have hmem0 := List.mem_of_find?_eq_some hf
    have hp0 := List.find?_some hf
    simp only [Bool.and_eq_true, beq_iff_eq] at hp0
    obtain ⟨hbt0, hbi0⟩ := hp0
    rw [bannedItem_active_iff]
    constructor
    · intro hact
      exact ⟨b0, hmem0, hbt0, hbi0, hact⟩
    · rintro ⟨b, hb, hbt, hbi, hexp⟩
      have hbb : b = b0 :=
        huniq b hb b0 hmem0 (hbt.trans hbt0.symm) (hbi.trans hbi0.symm)
      rwa [hbb] at hexp

/-- C5 witness: a stored permanent IP ban makes `is_banned` return
true. -/
theorem C5_witness : is_banned dbBan "ip" "1.2.3.4" 0 = true :=
  (C5_is_banned_iff dbBan "ip" "1.2.3.4" 0 (by decide)).mpr
    ⟨{ ban_type := "ip", identifier := "1.2.3.4", expires_at := none },
      by decide, rfl, rfl, Or.inl rfl⟩

/-- C9: joining the matchmaking queue with a profile id that matches no
stored profile fails with a not-found error and returns the database
unchanged — no `Pending` row is created. -/
theorem C9_join_missing_profile_fails (db : DB) (profile_id : Nat) (group_id : Int)
    (h : ∀ p ∈ db.profiles, p.profile_id ≠ profile_id) :
    add_to_pending db profile_id group_id = (.error .notFound, db) := by
  unfold add_to_pending
  have hf : db.profiles.find? (fun p => p.profile_id == profile_id) = none := by
    rw [List.find?_eq_none]
    intro p hp
    simpa using h p hp
  rw [hf]

/-- C9 witness: on the empty database, the join fails with `notFound` and
leaves the state untouched. -/
theorem C9_witness : add_to_pending emptyDB 1 9 = (.error .notFound, emptyDB) :=
  C9_join_missing_profile_fails emptyDB 1 9 (by decide)

/-- C10: under the unique-MAC invariant, `is_console_enabled` returns
false for a MAC with no registered console (fail-closed, no error), and
returns the stored `enabled` flag for a registered one. -/
theorem C10_console_enabled_fail_closed (db : DB) (mac_address : String)
    (huniq : ∀ c1 ∈ db.consoles, ∀ c2 ∈ db.consoles,
      c1.mac_address = c2.mac_address → c1 = c2) :
    ((∀ c ∈ db.consoles, c.mac_address ≠ mac_address) →
        is_console_enabled db mac_address = false)
    ∧ ∀ c ∈ db.consoles, c.mac_address = mac_address →
        is_console_enabled db mac_address = c.enabled := by
  constructor
  · intro habs
    unfold is_console_enabled
    have hf : db.consoles.find? (fun c => c.mac_address == mac_address) = none := by
      rw [List.find?_eq_none]
      intro c hc
      simpa using habs c hc
    rw [hf]
  · intro c hc hmac
    unfold is_console_enabled
    cases hf : db.consoles.find? (fun x => x.mac_address == mac_address) with
    | none =>
      rw [List.find?_eq_none] at hf
      exact absurd (by simp [hmac]) (hf c hc)
    | some c0 =>
      have h0 := List.find?_some hf
      simp only [beq_iff_eq] at h0
      have hmem0 := List.mem_of_find?_eq_some hf
      have hcc : c0 = c := huniq c0 hmem0 c hc (h0.trans hmac.symm)
      rw [hcc]

/-- C10 witness: with one enabled console registered, an unknown MAC
reads as disabled and the registered MAC reads as enabled. -/
theorem C10_witness :
    is_console_enabled dbCon "aa:bb:cc:dd:ee:ff" = false
    ∧ is_console_enabled dbCon "00:09:bf:11:22:33" = true :=
  ⟨(C10_console_enabled_fail_closed dbCon "aa:bb:cc:dd:ee:ff" (by decide)).1
      (by decide),
    (C10_console_enabled_fail_closed dbCon "00:09:bf:11:22:33" (by decide)).2
      { mac_address := "00:09:bf:11:22:33", enabled := true } (by decide) rfl⟩

theorem overwrite_endpoint_cookie (cookie : Int) (client_addr : String)
    (client_port : Int) (n : NatNeg) :
    (overwrite_endpoint cookie client_addr client_port n).cookie = n.cookie := by
  unfold overwrite_endpoint
  by_cases h : n.cookie == cookie <;> simp [h]

theorem filter_map_overwrite (l : List NatNeg) (cookie : Int) (client_addr : String)
    (client_port : Int)
    (hpw : l.Pairwise (fun m n => m.cookie ≠ n.cookie))
    (hmem : ∃ n ∈ l, n.cookie = cookie) :
    (l.map (overwrite_endpoint cookie client_addr client_port)).filter
        (fun n => n.cookie == cookie)
      = [{ cookie := cookie, client_addr := client_addr, client_port := client_port }] := by
  induction l with
  | nil => simp at hmem
  | cons x t ih =>
    rw [List.pairwise_cons] at hpw
    obtain ⟨hx, ht⟩ := hpw
    by_cases hc : x.cookie = cookie
    · have hxf : overwrite_endpoint cookie client_addr client_port x
          = { cookie := cookie, client_addr := client_addr, client_port := client_port } := by
        unfold overwrite_endpoint
        rw [if_pos (by simp [hc])]
        simp [hc]
      have htail : (t.map (overwrite_endpoint cookie client_addr client_port)).filter
          (fun n => n.cookie == cookie) = [] := by
        rw [List.filter_eq_nil_iff]
        intro y hy
        rw [List.mem_map] at hy
        obtain ⟨n, hn, rfl⟩ := hy
        have hnc : n.cookie ≠ cookie := fun hh => hx n hn (hc.trans hh.symm)
        simp [overwrite_endpoint_cookie, hnc]
      rw [List.map_cons, hxf, List.filter_cons, if_pos (by simp), htail]
    · have hmem2 : ∃ n ∈ t, n.cookie = cookie := by
        rcases hmem with ⟨n, hn, hnc⟩
        rcases List.mem_cons.mp hn with rfl | hn2
        · exact absurd hnc hc
        · exact ⟨n, hn2, hnc⟩
      have hxf : overwrite_endpoint cookie client_addr client_port x = x := by
        unfold overwrite_endpoint
        rw [if_neg (by simp [hc])]
      rw [List.map_cons, hxf, List.filter_cons, if_neg (by simp [hc])]
      exact ih ht hmem2

theorem create_natneg_filter (db : DB) (cookie : Int) (client_addr : String)
    (client_port : Int)
    (h : db.natnegs.Pairwise (fun m n => m.cookie ≠ n.cookie)) :
    (create_natneg db cookie client_addr client_port).2.natnegs.filter
        (fun n => n.cookie == cookie)
      = [{ cookie := cookie, client_addr := client_addr, client_port := client_port }] := by
  unfold create_natneg
  cases hf : db.natnegs.find? (fun n => n.cookie == cookie) with
  | none =>
    rw [List.find?_eq_none] at hf
    have h1 : db.natnegs.filter (fun n => n.cookie == cookie) = [] :=
      List.filter_eq_nil_iff.mpr hf
    show (db.natnegs ++ _).filter _ = _
    rw [List.filter_append, h1]
    simp
  | some n0 =>
    have hmem : ∃ n ∈ db.natnegs, n.cookie = cookie :=
      ⟨n0, List.mem_of_find?_eq_some hf, by simpa using List.find?_some hf⟩
    exact filter_map_overwrite db.natnegs cookie client_addr client_port h hmem

theorem pairwise_create_natneg (db : DB) (cookie : Int) (client_addr : String)
    (client_port : Int)
    (h : db.natnegs.Pairwise (fun m n => m.cookie ≠ n.cookie)) :
    (create_natneg db cookie client_addr client_port).2.natnegs.Pairwise
      (fun m n => m.cookie ≠ n.cookie) := by
  unfold create_natneg
  cases hf : db.natnegs.find? (fun n => n.cookie == cookie) with
  | none =>
    show ((db.natnegs ++ _).Pairwise _)
    rw [List.pairwise_append]
    refine ⟨h, List.pairwise_singleton _ _, ?_⟩
    intro m hm n2 hn2
    rw [List.mem_singleton] at hn2
    subst hn2
    rw [List.find?_eq_none] at hf
    simpa using hf m hm
  | some n0 =>
    show ((db.natnegs.map _).Pairwise _)
    rw [List.pairwise_map]
    apply h.imp
    intro a b hab
    simpa [overwrite_endpoint_cookie] using hab

/-- C6: re-registering a NAT-negotiation cookie replaces the endpoint:
after registering `(a1, p1)` and then `(a2, p2)` under the same cookie,
`get_natneg` resolves the cookie to the second endpoint, and exactly one
row with that cookie exists — never the first endpoint and never both. -/
theorem C6_natneg_second_registration_wins (db : DB) (cookie : Int)
    (a1 : String) (p1 : Int) (a2 : String) (p2 : Int)
    (h : db.natnegs.Pairwise (fun m n => m.cookie ≠ n.cookie)) :
    get_natneg (create_natneg (create_natneg db cookie a1 p1).2 cookie a2 p2).2 cookie
      = some { cookie := cookie, client_addr := a2, client_port := p2 }
    ∧ ((create_natneg (create_natneg db cookie a1 p1).2 cookie a2 p2).2.natnegs.filter
        (fun n => n.cookie == cookie)).length = 1 := by
  have h1 := pairwise_create_natneg db cookie a1 p1 h
  have h2 := create_natneg_filter (create_natneg db cookie a1 p1).2 cookie a2 p2 h1
  constructor
  · exact find?_of_filter_eq_singleton h2
  · rw [h2]
    rfl

/-- C6 witness: registering cookie 42 at port 1000 and then at port 2000
resolves to port 2000. -/
theorem C6_witness :
    get_natneg (create_natneg (create_natneg emptyDB 42 "1.1.1.1" 1000).2
        42 "1.1.1.1" 2000).2 42
      = some { cookie := 42, client_addr := "1.1.1.1", client_port := 2000 } :=
  (C6_natneg_second_registration_wins emptyDB 42 "1.1.1.1" 1000 "1.1.1.1" 2000
    List.Pairwise.nil).1

/-- C7: for an existing profile and a group it has not yet joined,
joining twice yields one `Pending` row with the second call returning the
same entry rather than erroring; leaving then returns true and removes
the row (restoring the original queue), and a second leave returns
false. -/
theorem C7_pending_join_idempotent_leave (db : DB) (profile_id : Nat) (group_id : Int)
    (hprof : ∃ p ∈ db.profiles, p.profile_id = profile_id)
    (habsent : ∀ q ∈ db.pendings,
      ¬(q.profile_id = profile_id ∧ q.group_id = group_id)) :
    (add_to_pending db profile_id group_id).1
        = .ok { profile_id := profile_id, group_id := group_id }
    ∧ add_to_pending (add_to_pending db profile_id group_id).2 profile_id group_id
        = (.ok { profile_id := profile_id, group_id := group_id },
            (add_to_pending db profile_id group_id).2)
    ∧ ((add_to_pending (add_to_pending db profile_id group_id).2 profile_id
          group_id).2.pendings.filter
        (fun q => q.profile_id == profile_id && q.group_id == group_id)).length = 1
    ∧ remove_from_pending (add_to_pending (add_to_pending db profile_id
          group_id).2 profile_id group_id).2 profile_id group_id = (true, db)
    ∧ (remove_from_pending db profile_id group_id).1 = false := by
  obtain ⟨p, hp, hpid⟩ := hprof
  cases hfp : db.profiles.find? (fun x => x.profile_id == profile_id) with
  | none =>
    rw [List.find?_eq_none] at hfp
    exact absurd (by simp [hpid]) (hfp p hp)
  | some pw =>
    have hqfalse : ∀ q ∈ db.pendings,
        (q.profile_id == profile_id && q.group_id == group_id) = false := by
      intro q hq
      by_contra hc
      rw [Bool.not_eq_false] at hc
      simp only [Bool.and_eq_true, beq_iff_eq] at hc
      exact habsent q hq hc
    have hfq : db.pendings.find?
        (fun q => q.profile_id == profile_id && q.group_id == group_id) = none := by
      rw [List.find?_eq_none]
      intro q hq
      simp [hqfalse q hq]
    have hnil : db.pendings.filter
        (fun q => q.profile_id == profile_id && q.group_id == group_id) = [] := by
      rw [List.filter_eq_nil_iff]
      intro q hq
      simp [hqfalse q hq]
    have e1 : add_to_pending db profile_id group_id
        = (.ok { profile_id := profile_id, group_id := group_id },
            { db with pendings := db.pendings
                ++ [({ profile_id := profile_id, group_id := group_id } : Pending)] }) := by
      unfold add_to_pending
      rw [hfp, hfq]
    have hfq1 : (db.pendings
          ++ [({ profile_id := profile_id, group_id := group_id } : Pending)]).find?
        (fun q => q.profile_id == profile_id && q.group_id == group_id)
        = some { profile_id := profile_id, group_id := group_id } := by
      rw [List.find?_append, hfq]
      simp
    have e2 : add_to_pending
        { db with pendings := db.pendings
            ++ [({ profile_id := profile_id, group_id := group_id } : Pending)] }
        profile_id group_id
        = (.ok { profile_id := profile_id, group_id := group_id },
            { db with pendings := db.pendings
                ++ [({ profile_id := profile_id, group_id := group_id } : Pending)] }) := by
      unfold add_to_pending
      rw [show ({ db with pendings := db.pendings
            ++ [({ profile_id := profile_id, group_id := group_id } : Pending)] } : DB).profiles
          = db.profiles from rfl]
      rw [hfp]
      rw [show ({ db with pendings := db.pendings
            ++ [({ profile_id := profile_id, group_id := group_id } : Pending)] } : DB).pendings
          = db.pendings
            ++ [({ profile_id := profile_id, group_id := group_id } : Pending)] from rfl]
      rw [hfq1]
    have hfil : (db.pendings
          ++ [({ profile_id := profile_id, group_id := group_id } : Pending)]).filter
        (fun q => q.profile_id == profile_id && q.group_id == group_id)
        = [({ profile_id := profile_id, group_id := group_id } : Pending)] := by
      rw [List.filter_append, hnil]
      simp
    have hself : (db.pendings
          ++ [({ profile_id := profile_id, group_id := group_id } : Pending)]).filter
        (fun q => !(q.profile_id == profile_id && q.group_id == group_id))
        = db.pendings := by
      rw [List.filter_append]
      have hs : db.pendings.filter
          (fun q => !(q.profile_id == profile_id && q.group_id == group_id))
          = db.pendings := by
        rw [List.filter_eq_self]
        intro q hq
        simp [hqfalse q hq]
      rw [hs]
      simp
    have e3 : remove_from_pending
        { db with pendings := db.pendings
            ++ [({ profile_id := profile_id, group_id := group_id } : Pending)] }
        profile_id group_id = (true, db) := by
      simp only [remove_from_pending]
      simp only [hfil, hself]
      rw [Prod.mk.injEq]
      exact ⟨by simp, rfl⟩
    have e4 : (remove_from_pending db profile_id group_id).1 = false := by
      simp only [remove_from_pending]
      rw [hnil]
      simp
    rw [e1]
    refine ⟨rfl, e2, ?_, ?_, e4⟩
    · dsimp only
      rw [e2]
      dsimp only
      rw [hfil]
      rfl
    · dsimp only
      rw [e2]
      dsimp only
      exact e3

/-- C7 witness: with profile 5 stored and an empty queue, the double
join / double leave scenario behaves as stated at `(profile 5, group
9)`. -/
theorem C7_witness :
    (add_to_pending dbPend 5 9).1 = .ok { profile_id := 5, group_id := 9 }
    ∧ add_to_pending (add_to_pending dbPend 5 9).2 5 9
        = (.ok { profile_id := 5, group_id := 9 }, (add_to_pending dbPend 5 9).2)
    ∧ ((add_to_pending (add_to_pending dbPend 5 9).2 5 9).2.pendings.filter
        (fun q => q.profile_id == 5 && q.group_id == 9)).length = 1
    ∧ remove_from_pending (add_to_pending (add_to_pending dbPend 5 9).2 5 9).2 5 9
        = (true, dbPend)
    ∧ (remove_from_pending dbPend 5 9).1 = false :=
  C7_pending_join_idempotent_leave dbPend 5 9
    ⟨{ profile_id := 5, user_id := "user5", game_id := "ADAJ",
       gs_broadcast_code := "", uniquenick := "nick5", cfc := "0000-0000-0005" },
      by decide, rfl⟩
    (by decide)

/-- C8 counterexample: supplying the empty string as `game_name` applies
no restriction — the lone online server named `"MarioKart"` is returned
even though its name is not `""`, so the result is not "further
restricted to game_name" for every supplied value. -/
theorem C8_empty_game_name_skips_filter :
    get_game_servers dbSrv (some "") 1000
      = [{ server_id := "srv1", game_name := "MarioKart", ip_address := "5.6.7.8",
           port := 27901, last_heartbeat := 1000 }]
    ∧ ({ server_id := "srv1", game_name := "MarioKart", ip_address := "5.6.7.8",
         port := 27901, last_heartbeat := 1000 } : GameServer).game_name ≠ "" := by
  constructor
  · rfl
  · decide

/-- C8 amended: `get_game_servers` returns exactly the registered servers
whose heartbeat is strictly less than 2 minutes old (exactly 2 minutes is
excluded), further restricted to `game_name` when a non-empty one is
supplied; a `None` or empty-string argument applies no name filter
(Python truthiness). -/
theorem C8_listActive_members (db : DB) (game_name : Option String) (now : Int)
    (s : GameServer) :
    s ∈ get_game_servers db game_name now ↔
      s ∈ db.game_servers ∧ now - s.last_heartbeat < 2 * 60
        ∧ ∀ g, game_name = some g → g ≠ "" → s.game_name = g := by
  unfold get_game_servers
  cases game_name with
  | none =>
    simp only [List.mem_filter, decide_eq_true_eq]
    constructor
    · rintro ⟨h1, h2⟩
      exact ⟨h1, by omega, by intro g hg; cases hg⟩
    · rintro ⟨h1, h2, _⟩
      exact ⟨h1, by omega⟩
  | some g =>
    by_cases hg : g = ""
    · subst hg
      dsimp only
      rw [if_pos (by rfl)]
      simp only [List.mem_filter, decide_eq_true_eq]
      constructor
      · rintro ⟨h1, h2⟩
        refine ⟨h1, by omega, ?_⟩
        intro g0 hg0 hne
        exact absurd (Option.some.injEq _ _ ▸ hg0).symm hne
      · rintro ⟨h1, h2, _⟩
        exact ⟨h1, by omega⟩
    · dsimp only
      rw [if_neg (by simpa using hg)]
      simp only [List.mem_filter, decide_eq_true_eq, beq_iff_eq]
      constructor
      · rintro ⟨⟨h1, h2⟩, h3⟩
        refine ⟨h1, by omega, ?_⟩
        intro g0 hg0 _
        rw [← Option.some.injEq g g0 |>.mp hg0]
        exact h3
      · rintro ⟨h1, h2, h3⟩
        exact ⟨⟨h1, by omega⟩, h3 g rfl hg⟩
